import Mathlib

/-!
Verification of the gopus MCP client core (internal/mcp) against its
natural-language specification.  The Go source is shallowly embedded:
pure functions become Lean functions, the mutable pending-request table
and the registry become explicit state values, machine integers (Go
int64) are Int with explicit wraparound where overflow matters, and the
concurrent environment (the dispatch loop delivering responses, other
callers registering and removing their own pending entries) is an
explicit list of interleaved operations.
-/

namespace Gopus

/-! ## Protocol codec (internal/mcp/protocol.go) -/

/-- Embedding of RPCError (protocol.go): code, message and optional data.
The JSON payloads are kept as opaque strings. -/
structure RPCError where
  code : Int
  message : String
  data : Option String := none
deriving DecidableEq

/-- Embedding of Message (protocol.go): the discriminated union used to
classify an incoming JSON-RPC envelope.  The Go field ID has type *int64,
embedded as Option Int; Method is a string, empty for responses. -/
structure Message where
  jsonrpc : String
  id : Option Int := none
  method : String := ""
  params : Option String := none
  result : Option String := none
  error : Option RPCError := none
deriving DecidableEq

/-- Embedding of Message.IsRequest (protocol.go line 185): id present and
method non-empty. -/
def Message.IsRequest (m : Message) : Bool :=
  m.id.isSome && m.method != ""

/-- Embedding of Message.IsNotification (protocol.go line 190): no id and
method non-empty. -/
def Message.IsNotification (m : Message) : Bool :=
  m.id.isNone && m.method != ""

/-- Embedding of Message.IsResponse (protocol.go line 195): id present and
method empty. -/
def Message.IsResponse (m : Message) : Bool :=
  m.id.isSome && m.method == ""

/-- Go int64 wraparound: the unique representative of x modulo 2^64 that
lies in the interval from -2^63 to 2^63 - 1. -/
def int64Wrap (x : Int) : Int :=
  (x + 2 ^ 63) % 2 ^ 64 - 2 ^ 63

/-- Embedding of nextID (protocol.go line 39): idGenerator.Add(1) on the
process-wide atomic int64 counter.  Takes the counter's current value and
returns its new value, which is also the id handed out. -/
def nextID (c : Int) : Int :=
  int64Wrap (c + 1)

/-- Embedding of Request (protocol.go): jsonrpc version, numeric id,
method, serialized params. -/
structure Request where
  jsonrpc : String
  id : Int
  method : String
  params : Option String := none
deriving DecidableEq

/-- Embedding of NewRequest (protocol.go line 52).  Params arrive already
serialized (json.Marshal of the caller's value), so the marshal-error
branch is not reachable here; the id is drawn from the shared counter. -/
def NewRequest (c : Int) (method : String) (params : Option String) : Request × Int :=
  let i := nextID c
  ({ jsonrpc := "2.0", id := i, method := method, params := params }, i)

/-- The ids handed out by n successive NewRequest calls starting from
counter value c, in call order.  The method and params are irrelevant to
the id assignment; a fixed method is used. -/
def requestIdsFrom (c : Int) : Nat → List Int
  | 0 => []
  | Nat.succ n =>
      ((NewRequest c ("ping") none).1).id :: requestIdsFrom (NewRequest c ("ping") none).2 n

/-! ## Connection pending-request table (manager.go, ServerConnection) -/

/-- Embedding of Response (protocol.go line 96): id plus either a result
payload or a structured RPC error. -/
structure Response where
  jsonrpc : String
  id : Int
  result : Option String := none
  error : Option RPCError := none
deriving DecidableEq

/-- The pending-request table of a ServerConnection (manager.go line 668):
map from request id to the waiting caller's single-use rendezvous channel
of capacity one, represented by its buffer content -- none while empty,
some r once a response has been handed off. -/
abbrev Pending := List (Int × Option Response)

/-- Map lookup on the pending table. -/
def getKey : Pending → Int → Option (Option Response)
  | [], _ => none
  | e :: rest, k => if e.1 = k then some e.2 else getKey rest k

/-- Map store on the pending table. -/
def setKey : Pending → Int → Option Response → Pending
  | [], k, v => [(k, v)]
  | e :: rest, k, v => if e.1 = k then (k, v) :: rest else e :: setKey rest k v

/-- Map delete on the pending table. -/
def delKey : Pending → Int → Pending
  | [], _ => []
  | e :: rest, k => if e.1 = k then delKey rest k else e :: delKey rest k

/-- Embedding of ServerConnection.handleResponse (manager.go line 976):
look up the channel under the table lock at key resp.ID; a non-blocking
send succeeds exactly when a waiter's channel is registered there with an
empty buffer, otherwise the response is silently dropped. -/
def handleResponse (p : Pending) (resp : Response) : Pending :=
  if getKey p resp.id = some none then setKey p resp.id (some resp) else p

/-- One operation on a connection's pending table, as performed
concurrently by the dispatch loop (deliver, via handleResponse) or by
another in-flight sendRequest call (reg when it registers its own slot,
del when its deferred delete removes it).  An interleaving is a list of
these. -/
inductive POp where
  | reg (k : Int)
  | deliver (r : Response)
  | del (k : Int)
deriving DecidableEq

/-- Apply one concurrent operation to the pending table. -/
def applyOp (p : Pending) : POp → Pending
  | POp.reg k => setKey p k none
  | POp.deliver r => handleResponse p r
  | POp.del k => delKey p k

/-- Invariant of the pending table: a buffered response always sits in the
slot keyed by its own id, because handleResponse only ever fills the slot
it looked up under resp.ID. -/
def PendingInv (p : Pending) : Prop :=
  ∀ k r, getKey p k = some (some r) → r.id = k

/-- The possible return values of ServerConnection.sendRequest: a
successful response, the response's structured RPC error, the
deadline/cancellation error from the context, or a transport send
error. -/
inductive SendResult where
  | ok (resp : Response)
  | rpcError (e : RPCError)
  | ctxError
  | sendError
deriving DecidableEq

/-- The select at manager.go line 964: take the buffered response from the
call's own channel when one is there (surfacing its RPC error when the
response carries one), otherwise return the context error when the
deadline/cancellation has fired, otherwise keep waiting (none). -/
def awaitSlot (p : Pending) (k : Int) (ctxDone : Bool) : Option SendResult :=
  match getKey p k with
  | some (some r) =>
      match r.error with
      | some e => some (SendResult.rpcError e)
      | none => some (SendResult.ok r)
  | _ => if ctxDone then some SendResult.ctxError else none

/-- Embedding of ServerConnection.sendRequest (manager.go line 939) for a
request whose NewRequest-assigned id is k: register an empty slot under k,
send the request (sendOk tells whether Transport.Send succeeded), let the
concurrent environment run an arbitrary interleaving ops of deliveries
and other calls' operations, then wait.  The deferred delete removes the
slot on every return path; a first component of none means the call has
not returned yet (still waiting on the select). -/
def sendRequest (p : Pending) (k : Int) (sendOk : Bool) (ops : List POp) (ctxDone : Bool) :
    Option SendResult × Pending :=
  let p2 := ops.foldl applyOp (setKey p k none)
  if sendOk then
    let res := awaitSlot p2 k ctxDone
    (res, if res.isSome then delKey p2 k else p2)
  else
    (some SendResult.sendError, delKey p2 k)

/-- Concrete response used by witnesses. -/
def respEx : Response := { jsonrpc := "2.0", id := 1 }

/-! ## Tool registry (Registry, the mcp registry source file) -/

/-- Embedding of Tool (types.go line 9): name, description, opaque input
schema, and the owning server's id, attached locally on receipt. -/
structure Tool where
  Name : String
  Description : String := ""
  InputSchema : Option String := none
  ServerID : String := ""
deriving DecidableEq

/-- Map store keyed by tool name (the write r.tools with key
tool.Name). -/
def setTool : List Tool → Tool → List Tool
  | [], t => [t]
  | u :: rest, t => if u.Name = t.Name then t :: rest else u :: setTool rest t

/-- Embedding of Registry.RegisterTools: each tool gets its ServerID field
set to the registering server and is stored under its name, overwriting
any existing entry of that name. -/
def RegisterTools (r : List Tool) (serverID : String) (ts : List Tool) : List Tool :=
  ts.foldl (fun acc t => setTool acc { t with ServerID := serverID }) r

/-- Embedding of Registry.UnregisterServer: remove every entry whose
ServerID matches, in one linear scan. -/
def UnregisterServer (r : List Tool) (serverID : String) : List Tool :=
  r.filter (fun t => t.ServerID != serverID)

/-- Embedding of Registry.GetTool (also the lookup of Manager.GetTool and
of the manager's tools map): first entry stored under the name. -/
def GetTool : List Tool → String → Option Tool
  | [], _ => none
  | t :: rest, name => if t.Name = name then some t else GetTool rest name

/-- Embedding of Registry.ServerStats read at one server id: the number
of registered tools owned by that server (reading a missing key of the
returned Go map yields the zero count). -/
def ServerStats (r : List Tool) (serverID : String) : Nat :=
  (r.filter (fun t => t.ServerID == serverID)).length

/-- Per-server count restricted to tools with a name other than the given
one: ServerStats as observed through all tools with other names. -/
def statsExcluding (r : List Tool) (serverID : String) (name : String) : Nat :=
  (r.filter (fun t => t.ServerID == serverID && t.Name != name)).length

/-- Concrete tool named x registered first, used by the C5 witness. -/
def toolXA : Tool := { Name := "x" }

/-- Concrete tool named x registered second, used by the C5 witness. -/
def toolXB : Tool := { Name := "x", Description := "newer" }

/-! ## Tool invocation (Client.CallTool, Manager.CallTool, manager.go) -/

/-- Embedding of ToolContent (types.go line 31). -/
structure ToolContent where
  type : String
  text : String := ""
deriving DecidableEq

/-- Embedding of ToolsCallResult (protocol.go line 150). -/
structure ToolsCallResult where
  content : List ToolContent
  isError : Bool := false
deriving DecidableEq

/-- Embedding of ToolResult (types.go line 24). -/
structure ToolResult where
  toolCallID : String
  content : List ToolContent
  isError : Bool
deriving DecidableEq

/-- A request issued on a connection's transport, as observed at the
transport boundary. -/
structure SentRequest where
  serverID : String
  method : String
  toolName : String
deriving DecidableEq

/-- Outcome of the sendRequest-plus-unmarshal step on the owning
connection, supplied by the environment. -/
inductive RpcOutcome where
  | success (res : ToolsCallResult)
  | failure
deriving DecidableEq

/-- The errors CallTool can return before or after touching a
transport. -/
inductive CallError where
  | toolNotFound (name : String)
  | serverNotConnected (serverID : String)
  | callFailed (name : String)
deriving DecidableEq

/-- Embedding of Client.CallTool (manager.go line 777): look the name up
in the registry; if absent, fail immediately with tool-not-found; if the
owning server has no connection, fail with server-not-connected;
otherwise issue one tools/call request on the owning connection.  The
second component is the list of requests issued on any transport during
the call. -/
def clientCallTool (reg : List Tool) (servers : List String) (name : String)
    (env : RpcOutcome) : Except CallError ToolResult × List SentRequest :=
  match GetTool reg name with
  | none => (Except.error (CallError.toolNotFound name), [])
  | some tool =>
      if servers.contains tool.ServerID then
        match env with
        | RpcOutcome.success res =>
            (Except.ok { toolCallID := "", content := res.content, isError := res.isError },
              [{ serverID := tool.ServerID, method := "tools/call", toolName := name }])
        | RpcOutcome.failure =>
            (Except.error (CallError.callFailed name),
              [{ serverID := tool.ServerID, method := "tools/call", toolName := name }])
      else
        (Except.error (CallError.serverNotConnected tool.ServerID), [])

/-- Embedding of Manager.CallTool (manager.go line 163): look the name up
in the manager's tools map; if absent, fail immediately with
tool-not-found; otherwise issue the tools/call on the owning client. -/
def managerCallTool (tools : List Tool) (name : String) (env : RpcOutcome) :
    Except CallError ToolsCallResult × List SentRequest :=
  match GetTool tools name with
  | none => (Except.error (CallError.toolNotFound name), [])
  | some info =>
      match env with
      | RpcOutcome.success res =>
          (Except.ok res,
            [{ serverID := info.ServerID, method := "tools/call", toolName := name }])
      | RpcOutcome.failure =>
          (Except.error (CallError.callFailed name),
            [{ serverID := info.ServerID, method := "tools/call", toolName := name }])

/-! ## Close (Manager.Close, Client.Close, manager.go) -/

/-- One connection as Close sees it: its id and whether closing its
transport (or client) fails. -/
structure ConnModel where
  id : String
  closeFails : Bool
deriving DecidableEq

/-- A transport close failure surfaced by Close, wrapped with the failing
connection's id. -/
inductive CloseError where
  | closeFailed (id : String)
deriving DecidableEq

/-- The close errors collected while iterating the connections. -/
def closeErrors (conns : List ConnModel) : List CloseError :=
  conns.filterMap
    (fun conn => if conn.closeFails then some (CloseError.closeFailed conn.id) else none)

/-- Client state as Close sees it: connections and registry content. -/
structure ClientState where
  servers : List ConnModel
  registryTools : List Tool
deriving DecidableEq

/-- Embedding of Client.Close (manager.go line 819): close every
transport, clear the server map and the registry, and return the first
close error if any. -/
def clientClose (c : ClientState) : Option CloseError × ClientState :=
  ((closeErrors c.servers).head?, { servers := [], registryTools := [] })

/-- Manager state as Close sees it: clients and the tools map. -/
structure ManagerState where
  clients : List ConnModel
  tools : List Tool
deriving DecidableEq

/-- Embedding of Manager.Close (manager.go line 186): close every client,
reset the client and tool maps, and return the first close error if
any. -/
def managerClose (m : ManagerState) : Option CloseError × ManagerState :=
  ((closeErrors m.clients).head?, { clients := [], tools := [] })

/-- Concrete manager whose one client fails to close, used by the C9
counterexample. -/
def mgrFailState : ManagerState :=
  { clients := [{ id := "s1", closeFails := true }], tools := [] }

/-! ## AddServer (Client.AddServer, Manager.AddServer, manager.go) -/

/-- Embedding of ConnectionState (types.go line 103). -/
inductive ConnectionState where
  | stateDisconnected
  | stateConnecting
  | stateConnected
  | stateError
deriving DecidableEq

/-- The errors an add-provider call can return, wrapped with the
provider id. -/
inductive AddError where
  | alreadyExists (id : String)
  | createFailed (id : String)
  | startFailed (id : String)
  | initFailed (id : String)
deriving DecidableEq

/-- Environment outcomes of one Client.AddServer attempt: whether
Transport.Start fails, whether the initialize request (or parsing its
result) fails, whether sending the initialized notification fails,
whether the tools/list fetch fails, and the tools a successful fetch
returns. -/
structure AddEnv where
  startFails : Bool
  initFails : Bool
  notifyFails : Bool
  fetchFails : Bool
  fetchedTools : List Tool
deriving DecidableEq

/-- Observable outcome of Client.AddServer: the returned error, the
post-state of the server map and registry, and whether Transport.Start
and Transport.Close were invoked during the call. -/
structure AddOutcome where
  result : Option AddError
  servers : List (String × ConnectionState)
  registry : List Tool
  startCalled : Bool
  closeCalled : Bool
deriving DecidableEq

/-- Embedding of Client.AddServer (manager.go line 687): reject a
duplicate id before touching the transport; start the transport (a start
failure returns the error without calling Close); run the initialize
handshake and the initialized notification (a failure there closes the
transport and returns the error); on success fetch tools non-fatally and
record the connection. -/
def clientAddServer (servers : List (String × ConnectionState)) (registry : List Tool)
    (id : String) (env : AddEnv) : AddOutcome :=
  if (servers.find? (fun e => e.1 == id)).isSome then
    { result := some (AddError.alreadyExists id), servers := servers, registry := registry,
      startCalled := false, closeCalled := false }
  else if env.startFails then
    { result := some (AddError.startFailed id), servers := servers, registry := registry,
      startCalled := true, closeCalled := false }
  else if env.initFails || env.notifyFails then
    { result := some (AddError.initFailed id), servers := servers, registry := registry,
      startCalled := true, closeCalled := true }
  else
    { result := none,
      servers := servers ++ [(id, ConnectionState.stateConnected)],
      registry := if env.fetchFails then registry else RegisterTools registry id env.fetchedTools,
      startCalled := true, closeCalled := false }

/-- Environment outcomes of one Manager.AddServer attempt (the mcp-go
wrapping version): whether creating the stdio client fails, whether
Initialize fails, whether the tools fetch fails, and the fetched
tools. -/
structure MgrAddEnv where
  createFails : Bool
  initFails : Bool
  fetchFails : Bool
  fetchedTools : List Tool
deriving DecidableEq

/-- Observable outcome of Manager.AddServer. -/
structure MgrAddOutcome where
  result : Option AddError
  clients : List String
  tools : List Tool
  clientCreated : Bool
  clientClosed : Bool
deriving DecidableEq

/-- Embedding of Manager.AddServer (manager.go line 38): reject a
duplicate id before creating any client; create the stdio client (which
spawns the subprocess); initialize it (a failure closes the client and
returns the error); store the client, then fetch and register tools
non-fatally. -/
def managerAddServer (clients : List String) (tools : List Tool) (id : String)
    (env : MgrAddEnv) : MgrAddOutcome :=
  if clients.contains id then
    { result := some (AddError.alreadyExists id), clients := clients, tools := tools,
      clientCreated := false, clientClosed := false }
  else if env.createFails then
    { result := some (AddError.createFailed id), clients := clients, tools := tools,
      clientCreated := false, clientClosed := false }
  else if env.initFails then
    { result := some (AddError.initFailed id), clients := clients, tools := tools,
      clientCreated := true, clientClosed := true }
  else
    { result := none, clients := clients ++ [id],
      tools := if env.fetchFails then tools else RegisterTools tools id env.fetchedTools,
      clientCreated := true, clientClosed := false }

/-- Concrete environment where the transport start fails, used by the C4
counterexample. -/
def envStartFail : AddEnv :=
  { startFails := true, initFails := false, notifyFails := false, fetchFails := false,
    fetchedTools := [] }

/-- Concrete environment where the initialize handshake fails, used by
the C4 witness. -/
def envInitFail : AddEnv :=
  { startFails := false, initFails := true, notifyFails := false, fetchFails := false,
    fetchedTools := [] }

/-! ## Theorems for the protocol codec -/

/-- Claim C3: for every parsed Message, classification is purely structural
and exclusive: non-nil id and non-empty method is a request, no id and
non-empty method a notification, non-nil id and no method a response, and
no message satisfies more than one classification. -/
theorem message_classification_structural_exclusive (m : Message) :
    ((m.id ≠ none ∧ m.method ≠ "") ↔ m.IsRequest = true) ∧
    ((m.id = none ∧ m.method ≠ "") ↔ m.IsNotification = true) ∧
    ((m.id ≠ none ∧ m.method = "") ↔ m.IsResponse = true) ∧
    ((m.IsRequest && m.IsNotification) = false) ∧
    ((m.IsRequest && m.IsResponse) = false) ∧
    ((m.IsNotification && m.IsResponse) = false) := by
  obtain ⟨v, i, mth, p, r, e⟩ := m
  cases i <;>
    by_cases h : mth = "" <;>
    simp [Message.IsRequest, Message.IsNotification, Message.IsResponse,
      Option.isSome, Option.isNone, h]

lemma int64Wrap_eq_self (x : Int) (h0 : -(2 ^ 63) ≤ x) (h1 : x < 2 ^ 63) :
    int64Wrap x = x := by
  unfold int64Wrap
  omega

lemma requestIdsFrom_strict (c : Int) (n : Nat) (h0 : 0 ≤ c) (h1 : c + n < 2 ^ 63) :
    List.Pairwise (· < ·) (requestIdsFrom c n) ∧ ∀ x ∈ requestIdsFrom c n, c < x := by
  induction n generalizing c with
  | zero => simp [requestIdsFrom]
  | succ n ih =>
      have hw : nextID c = c + 1 := by
        unfold nextID
        refine int64Wrap_eq_self (c + 1) (by omega) (by push_cast at h1 ⊢; omega)
      have hbound : (c + 1) + (n : Int) < 2 ^ 63 := by push_cast at h1 ⊢; omega
      obtain ⟨hpair, hmem⟩ := ih (c + 1) (by omega) hbound
      constructor
      · refine List.Pairwise.cons ?_ ?_
        · intro x hx
          have hcx : c + 1 < x := by
            have := hmem x (by simpa [requestIdsFrom, NewRequest, hw] using hx)
            exact this
          simp only [NewRequest, hw]
          omega
        · simpa [requestIdsFrom, NewRequest, hw] using hpair
      · intro x hx
        simp only [requestIdsFrom, NewRequest, hw, List.mem_cons] at hx
        rcases hx with hx | hx
        · omega
        · have := hmem x (by simpa [NewRequest, hw] using hx)
          omega

/-- Claim C2: request ids come from a single process-wide monotonically
increasing counter (initial value 0, the Go zero value of atomic.Int64):
the ids of successive NewRequest calls are strictly increasing in call
order, hence pairwise distinct, as long as the number of calls made over
the process lifetime stays below 2^63 (no int64 overflow). -/
theorem newRequest_ids_strictly_increasing (n : Nat) (hn : (n : Int) < 2 ^ 63) :
    List.Pairwise (· < ·) (requestIdsFrom 0 n) ∧ (requestIdsFrom 0 n).Nodup := by
  obtain ⟨hpair, _⟩ := requestIdsFrom_strict 0 n le_rfl (by omega)
  exact ⟨hpair, hpair.imp fun h => ne_of_lt h⟩

/-- Witness for C2: three concrete calls satisfy the overflow bound and
yield strictly increasing, pairwise distinct ids. -/
theorem newRequest_ids_strictly_increasing_witness :
    List.Pairwise (· < ·) (requestIdsFrom 0 3) ∧ (requestIdsFrom 0 3).Nodup :=
  newRequest_ids_strictly_increasing 3 (by norm_num)

/-! ## Theorems for the pending-request table -/

lemma getKey_setKey_self (p : Pending) (k : Int) (v : Option Response) :
    getKey (setKey p k v) k = some v := by
  induction p with
  | nil => simp [setKey, getKey]
  | cons e rest ih =>
      by_cases he : e.1 = k
      · simp [setKey, getKey, he]
      · simp [setKey, getKey, he, ih]

lemma getKey_setKey_ne (p : Pending) (k k' : Int) (v : Option Response) (h : k' ≠ k) :
    getKey (setKey p k v) k' = getKey p k' := by
  induction p with
  | nil => simp [setKey, getKey, Ne.symm h]
  | cons e rest ih =>
      by_cases he : e.1 = k
      · subst he
        simp [setKey, getKey, Ne.symm h]
      · simp only [setKey, he, if_false, getKey]
        by_cases he' : e.1 = k'
        · simp [he']
        · simp [he', ih]

lemma getKey_delKey_self (p : Pending) (k : Int) :
    getKey (delKey p k) k = none := by
  induction p with
  | nil => simp [delKey, getKey]
  | cons e rest ih =>
      by_cases he : e.1 = k
      · simp [delKey, he, ih]
      · simp [delKey, getKey, he, ih]

lemma getKey_delKey_ne (p : Pending) (k k' : Int) (h : k' ≠ k) :
    getKey (delKey p k) k' = getKey p k' := by
  induction p with
  | nil => simp [delKey]
  | cons e rest ih =>
      by_cases he : e.1 = k
      · subst he
        simp [delKey, getKey, Ne.symm h, ih]
      · simp only [delKey, he, if_false, getKey]
        by_cases he' : e.1 = k'
        · simp [he']
        · simp [he', ih]

lemma pendingInv_empty : PendingInv ([] : Pending) := by
  intro k r h
  simp [getKey] at h

lemma pendingInv_setKey_empty (p : Pending) (k : Int) (h : PendingInv p) :
    PendingInv (setKey p k none) := by
  intro k' r hr
  by_cases hk : k' = k
  · subst hk
    rw [getKey_setKey_self] at hr
    cases hr
  · rw [getKey_setKey_ne _ _ _ _ hk] at hr
    exact h k' r hr

lemma pendingInv_handleResponse (p : Pending) (resp : Response) (h : PendingInv p) :
    PendingInv (handleResponse p resp) := by
  unfold handleResponse
  by_cases hc : getKey p resp.id = some none
  · rw [if_pos hc]
    intro k' r hr
    by_cases hk : k' = resp.id
    · subst hk
      rw [getKey_setKey_self] at hr
      obtain rfl : resp = r := by injection hr with h1; injection h1
      rfl
    · rw [getKey_setKey_ne _ _ _ _ hk] at hr
      exact h k' r hr
  · rw [if_neg hc]
    exact h

lemma pendingInv_delKey (p : Pending) (k : Int) (h : PendingInv p) :
    PendingInv (delKey p k) := by
  intro k' r hr
  by_cases hk : k' = k
  · subst hk
    rw [getKey_delKey_self] at hr
    cases hr
  · rw [getKey_delKey_ne _ _ _ hk] at hr
    exact h k' r hr

lemma pendingInv_applyOp (p : Pending) (op : POp) (h : PendingInv p) :
    PendingInv (applyOp p op) := by
  cases op with
  | reg k => exact pendingInv_setKey_empty p k h
  | deliver r => exact pendingInv_handleResponse p r h
  | del k => exact pendingInv_delKey p k h

lemma pendingInv_foldl (ops : List POp) (p : Pending) (h : PendingInv p) :
    PendingInv (ops.foldl applyOp p) := by
  induction ops generalizing p with
  | nil => exact h
  | cons op rest ih => exact ih (applyOp p op) (pendingInv_applyOp p op h)

lemma awaitSlot_ok (p : Pending) (k : Int) (ctxDone : Bool) (r : Response)
    (h : awaitSlot p k ctxDone = some (SendResult.ok r)) :
    getKey p k = some (some r) := by
  unfold awaitSlot at h
  split at h
  · rename_i r0 heq
    split at h
    · cases h
    · rename_i he
      obtain rfl : r0 = r := by injection h with h1; injection h1
      exact heq
  · split at h <;> cases h

/-- Claim C1: for every interleaving of concurrent deliveries via
handleResponse (and of other calls' slot operations) over any table
reachable from the empty one, a sendRequest call for request id k that
succeeds returns the response whose id equals k -- it never returns a
response carrying a different id.  All other return values (RPC error,
deadline/cancellation, transport send error) carry no response. -/
theorem sendRequest_id_correlated (hist : List POp) (k : Int) (sendOk : Bool)
    (ops : List POp) (ctxDone : Bool) (r : Response)
    (h : (sendRequest (hist.foldl applyOp []) k sendOk ops ctxDone).1 =
      some (SendResult.ok r)) :
    r.id = k := by
  have hinv : PendingInv (ops.foldl applyOp (setKey (hist.foldl applyOp []) k none)) :=
    pendingInv_foldl ops _
      (pendingInv_setKey_empty _ k (pendingInv_foldl hist [] pendingInv_empty))
  simp only [sendRequest] at h
  by_cases hs : sendOk
  · simp only [hs, if_true] at h
    exact hinv k r (awaitSlot_ok _ k ctxDone r h)
  · simp only [hs, if_false, Bool.false_eq_true] at h
    cases h

/-- Witness for C1: with an empty history, request id 1, a successful
send and a single delivered response, sendRequest returns that response
and its id is 1. -/
theorem sendRequest_id_correlated_witness :
    ((sendRequest (List.foldl applyOp [] []) 1 true [POp.deliver respEx] false).1 =
      some (SendResult.ok respEx)) ∧ respEx.id = 1 :=
  ⟨by decide, sendRequest_id_correlated [] 1 true [POp.deliver respEx] false respEx (by decide)⟩

lemma getKey_handleResponse_none (p : Pending) (resp : Response) (k : Int)
    (h : getKey p k = none) : getKey (handleResponse p resp) k = none := by
  unfold handleResponse
  by_cases hc : getKey p resp.id = some none
  · rw [if_pos hc]
    have hk : k ≠ resp.id := by
      intro e
      subst e
      rw [h] at hc
      cases hc
    rw [getKey_setKey_ne _ _ _ _ hk]
    exact h
  · rw [if_neg hc]
    exact h

lemma getKey_foldl_none (ops : List POp) (p : Pending) (k : Int)
    (h : getKey p k = none) (hops : POp.reg k ∉ ops) :
    getKey (ops.foldl applyOp p) k = none := by
  induction ops generalizing p with
  | nil => exact h
  | cons op rest ih =>
      have hop : getKey (applyOp p op) k = none := by
        cases op with
        | reg k' =>
            have hk : k ≠ k' := by
              intro e
              subst e
              exact hops (List.mem_cons_self _ _)
            simp only [applyOp]
            rw [getKey_setKey_ne _ _ _ _ hk]
            exact h
        | deliver r => exact getKey_handleResponse_none p r k h
        | del k' =>
            by_cases hk : k = k'
            · subst hk
              simp only [applyOp]
              exact getKey_delKey_self _ _
            · simp only [applyOp]
              rw [getKey_delKey_ne _ _ _ hk]
              exact h
      exact ih (applyOp p op) hop (fun m => hops (List.mem_cons_of_mem _ m))

/-- Claim C8: whenever sendRequest returns -- response arrived, RPC error,
deadline/cancellation fired, or the transport send failed -- the
pending-request entry keyed by the request's id has been removed (the
deferred delete), and it stays absent under any further concurrent
operations that are not a re-registration of the same id (ids are never
reused, claim C2). -/
theorem sendRequest_pending_removed (p : Pending) (k : Int) (sendOk : Bool) (ops : List POp)
    (ctxDone : Bool) (after : List POp)
    (hret : (sendRequest p k sendOk ops ctxDone).1.isSome = true)
    (hafter : POp.reg k ∉ after) :
    getKey (sendRequest p k sendOk ops ctxDone).2 k = none ∧
    getKey (after.foldl applyOp (sendRequest p k sendOk ops ctxDone).2) k = none := by
  have hmain : getKey (sendRequest p k sendOk ops ctxDone).2 k = none := by
    simp only [sendRequest] at hret ⊢
    by_cases hs : sendOk
    · simp only [hs, if_true] at hret ⊢
      rw [hret, if_pos rfl]
      exact getKey_delKey_self _ _
    · simp only [hs, if_false]
      exact getKey_delKey_self _ _
  exact ⟨hmain, getKey_foldl_none after _ k hmain hafter⟩

/-- Witness for C8: a call whose deadline fires with no response delivered
returns the context error and leaves no entry under its id. -/
theorem sendRequest_pending_removed_witness :
    ((sendRequest [] 1 true [] true).1.isSome = true) ∧
    (getKey (sendRequest [] 1 true [] true).2 1 = none ∧
      getKey (List.foldl applyOp (sendRequest [] 1 true [] true).2 []) 1 = none) :=
  ⟨by decide, sendRequest_pending_removed [] 1 true [] true [] (by decide) (by decide)⟩

/-! ## Theorems for the registry -/

lemma GetTool_setTool (r : List Tool) (t : Tool) :
    GetTool (setTool r t) t.Name = some t := by
  induction r with
  | nil => simp [setTool, GetTool]
  | cons u rest ih =>
      by_cases hu : u.Name = t.Name
      · simp [setTool, GetTool, hu]
      · simp [setTool, GetTool, hu, ih]

lemma filter_setTool (r : List Tool) (t : Tool) (q : Tool → Bool)
    (hq : ∀ u : Tool, u.Name = t.Name → q u = false) :
    (setTool r t).filter q = r.filter q := by
  induction r with
  | nil => simp [setTool, List.filter, hq t rfl]
  | cons u rest ih =>
      by_cases hu : u.Name = t.Name
      · simp [setTool, hu, List.filter_cons, hq t rfl, hq u hu]
      · simp only [setTool, hu, if_false, List.filter_cons, ih]

/-- Claim C5: registering a tool whose name collides with an existing
entry replaces it (last write wins): after registering tA under provider
a and then tB of the same name under provider b, GetTool at that name
returns tB tagged with provider b, and every per-provider count taken
over the tools with other names is unchanged. -/
theorem register_last_write_wins (r : List Tool) (a b : String) (tA tB : Tool)
    (h : tA.Name = tB.Name) (sid : String) :
    GetTool (RegisterTools (RegisterTools r a [tA]) b [tB]) tB.Name =
      some { tB with ServerID := b } ∧
    statsExcluding (RegisterTools (RegisterTools r a [tA]) b [tB]) sid tB.Name =
      statsExcluding r sid tB.Name := by
  constructor
  · have hmain : GetTool (setTool (RegisterTools r a [tA]) { tB with ServerID := b })
        ({ tB with ServerID := b } : Tool).Name = some { tB with ServerID := b } :=
      GetTool_setTool _ _
    simpa [RegisterTools] using hmain
  · have hqA : ∀ u : Tool, u.Name = ({ tA with ServerID := a } : Tool).Name →
        (u.ServerID == sid && u.Name != tB.Name) = false := by
      intro u hu
      have hu' : u.Name = tB.Name := by simpa [h] using hu
      simp [hu']
    have hqB : ∀ u : Tool, u.Name = ({ tB with ServerID := b } : Tool).Name →
        (u.ServerID == sid && u.Name != tB.Name) = false := by
      intro u hu
      have hu' : u.Name = tB.Name := by simpa using hu
      simp [hu']
    simp only [RegisterTools, List.foldl, statsExcluding]
    rw [filter_setTool _ _ _ hqB, filter_setTool _ _ _ hqA]

/-- Witness for C5: two concrete tools named x registered by providers
provA then provB; the lookup returns the provB-tagged tool and provA's
count over other names is unchanged. -/
theorem register_last_write_wins_witness :
    toolXA.Name = toolXB.Name ∧
    (GetTool (RegisterTools (RegisterTools [] ("provA") [toolXA]) ("provB") [toolXB])
        toolXB.Name = some { toolXB with ServerID := "provB" } ∧
      statsExcluding (RegisterTools (RegisterTools [] ("provA") [toolXA]) ("provB") [toolXB])
          ("provA") toolXB.Name = statsExcluding [] ("provA") toolXB.Name) :=
  ⟨by decide, register_last_write_wins [] ("provA") ("provB") toolXA toolXB (by decide) ("provA")⟩

/-- Claim C6: UnregisterServer removes exactly the entries whose owning
ServerID matches and leaves every entry owned by any other provider in
place unchanged -- same name, same metadata, same owner tag, in the same
relative order (the result is a sublist of the original). -/
theorem unregister_removes_exactly (r : List Tool) (sid : String) (t : Tool) :
    (t ∈ UnregisterServer r sid ↔ (t ∈ r ∧ t.ServerID ≠ sid)) ∧
    List.Sublist (UnregisterServer r sid) r := by
  constructor
  · simp [UnregisterServer, List.mem_filter, bne_iff_ne]
  · exact List.filter_sublist r

/-! ## Theorems for tool invocation -/

/-- Claim C7: invoking a tool whose name is not in the registry (for
Client.CallTool) or not in the manager's tools map (for Manager.CallTool)
fails immediately with a tool-not-found error and issues no request on
any transport -- the sent-request trace is empty. -/
theorem callTool_not_found (reg tools : List Tool) (servers : List String) (name : String)
    (env envM : RpcOutcome)
    (h : GetTool reg name = none) (hM : GetTool tools name = none) :
    clientCallTool reg servers name env = (Except.error (CallError.toolNotFound name), []) ∧
    managerCallTool tools name envM = (Except.error (CallError.toolNotFound name), []) := by
  constructor
  · simp [clientCallTool, h]
  · simp [managerCallTool, hM]

/-- Witness for C7: a lookup of an unregistered name in the empty
registry and tools map fails with tool-not-found and sends nothing. -/
theorem callTool_not_found_witness :
    (GetTool [] ("missing") = none) ∧
    (clientCallTool [] [] ("missing") RpcOutcome.failure =
        (Except.error (CallError.toolNotFound ("missing")), []) ∧
      managerCallTool [] ("missing") RpcOutcome.failure =
        (Except.error (CallError.toolNotFound ("missing")), [])) :=
  ⟨rfl, callTool_not_found [] [] [] ("missing") RpcOutcome.failure RpcOutcome.failure rfl rfl⟩

/-! ## Theorems for Close -/

/-- Counterexample to claim C9 as stated: for a manager with one client
whose close fails, the first Close returns that error while the second
returns none, so the second call does not return the first call's
outcome. -/
theorem close_second_call_differs :
    (managerClose (managerClose mgrFailState).2).1 ≠ (managerClose mgrFailState).1 := by
  decide

/-- Claim C9 (amended): a second Close on the same Manager or Client does
not error -- it always returns none, because the first call cleared the
connection maps -- and therefore returns the first call's outcome exactly
when the first call succeeded; it also leaves the state as the first call
left it. -/
theorem close_second_call_no_error (c : ClientState) (m : ManagerState) :
    ((clientClose (clientClose c).2).1 = none ∧
      (clientClose (clientClose c).2).2 = (clientClose c).2) ∧
    ((managerClose (managerClose m).2).1 = none ∧
      (managerClose (managerClose m).2).2 = (managerClose m).2) ∧
    ((clientClose c).1 = none → (clientClose (clientClose c).2).1 = (clientClose c).1) ∧
    ((managerClose m).1 = none → (managerClose (managerClose m).2).1 = (managerClose m).1) := by
  refine ⟨⟨?_, ?_⟩, ⟨?_, ?_⟩, ?_, ?_⟩
  · simp [clientClose, closeErrors]
  · simp [clientClose]
  · simp [managerClose, closeErrors]
  · simp [managerClose]
  · intro h
    rw [h]
    simp [clientClose, closeErrors]
  · intro h
    rw [h]
    simp [managerClose, closeErrors]

/-! ## Theorems for AddServer -/

/-- Counterexample to claim C4 as stated: when Transport.Start itself
fails, Client.AddServer returns the error and retains no record, but does
not invoke Transport.Close -- this failing add-provider call does not
tear the transport down. -/
theorem addServer_start_failure_no_close :
    ((clientAddServer [] [] ("srv") envStartFail).result.isSome = true) ∧
    ((clientAddServer [] [] ("srv") envStartFail).closeCalled = false) := by
  decide

/-- Claim C4 (amended): every failing add-provider call (transport start,
initialize handshake, or initialized notification failure) returns the
error, retains no connection record, and leaves the registry unchanged;
AddServer closes the transport exactly when the failure came after a
successful start (handshake or notification failure) -- on a start
failure Close is not invoked. -/
theorem addServer_failure_teardown (servers : List (String × ConnectionState))
    (registry : List Tool) (id : String) (env : AddEnv)
    (hfresh : (servers.find? (fun e => e.1 == id)).isSome = false)
    (hfail : env.startFails = true ∨ env.initFails = true ∨ env.notifyFails = true) :
    ((clientAddServer servers registry id env).result.isSome = true) ∧
    ((clientAddServer servers registry id env).servers = servers) ∧
    ((clientAddServer servers registry id env).registry = registry) ∧
    ((clientAddServer servers registry id env).closeCalled = !env.startFails) := by
  by_cases hsf : env.startFails
  · simp [clientAddServer, hfresh, hsf]
  · rcases hfail with h1 | h2 | h3
    · exact absurd h1 hsf
    · simp [clientAddServer, hfresh, hsf, h2]
    · simp [clientAddServer, hfresh, hsf, h3]

/-- Witness for C4 (amended): a fresh id whose initialize handshake
fails; AddServer errors, retains nothing, and closes the transport. -/
theorem addServer_failure_teardown_witness :
    ((([] : List (String × ConnectionState)).find? (fun e => e.1 == ("srv"))).isSome = false) ∧
    (envInitFail.startFails = true ∨ envInitFail.initFails = true ∨
      envInitFail.notifyFails = true) ∧
    (((clientAddServer [] [] ("srv") envInitFail).result.isSome = true) ∧
      ((clientAddServer [] [] ("srv") envInitFail).servers = []) ∧
      ((clientAddServer [] [] ("srv") envInitFail).registry = []) ∧
      ((clientAddServer [] [] ("srv") envInitFail).closeCalled = !envInitFail.startFails)) :=
  ⟨by decide, Or.inr (Or.inl (by decide)),
    addServer_failure_teardown [] [] ("srv") envInitFail (by decide) (Or.inr (Or.inl (by decide)))⟩

/-- Claim C10: adding a provider under an id that already has a
connection record fails with the already-exists error before any
transport or client is created or started, leaving the connection map,
the registry/tools map, and all existing connections unchanged -- for
both the Client and the Manager variant of AddServer. -/
theorem addServer_duplicate_id (servers : List (String × ConnectionState))
    (registry : List Tool) (clients : List String) (tools : List Tool) (id : String)
    (envC : AddEnv) (envM : MgrAddEnv)
    (h1 : (servers.find? (fun e => e.1 == id)).isSome = true)
    (h2 : clients.contains id = true) :
    clientAddServer servers registry id envC =
      { result := some (AddError.alreadyExists id), servers := servers, registry := registry,
        startCalled := false, closeCalled := false } ∧
    managerAddServer clients tools id envM =
      { result := some (AddError.alreadyExists id), clients := clients, tools := tools,
        clientCreated := false, clientClosed := false } := by
  constructor
  · simp [clientAddServer, h1]
  · have h2' : id ∈ clients := by simpa using h2
    simp [managerAddServer, h2']

/-- Witness for C10: a duplicate id "srv" is rejected by both AddServer
variants with everything left unchanged. -/
theorem addServer_duplicate_id_witness :
    ((([("srv", ConnectionState.stateConnected)] :
        List (String × ConnectionState)).find? (fun e => e.1 == ("srv"))).isSome = true) ∧
    (([("srv")] : List String).contains ("srv") = true) ∧
    (clientAddServer [("srv", ConnectionState.stateConnected)] [] ("srv") envStartFail =
        { result := some (AddError.alreadyExists ("srv")),
          servers := [("srv", ConnectionState.stateConnected)], registry := [],
          startCalled := false, closeCalled := false } ∧
      managerAddServer [("srv")] [] ("srv")
          { createFails := false, initFails := false, fetchFails := false, fetchedTools := [] } =
        { result := some (AddError.alreadyExists ("srv")), clients := [("srv")], tools := [],
          clientCreated := false, clientClosed := false }) :=
  ⟨by decide, by decide,
    addServer_duplicate_id [("srv", ConnectionState.stateConnected)] [] [("srv")] []
      ("srv") envStartFail
      { createFails := false, initFails := false, fetchFails := false, fetchedTools := [] }
      (by decide) (by decide)⟩

end Gopus
